import Mathlib

/-!
# Verification of the Couchbase testcontainer provisioning orchestrator

Shallow embedding of the TypeScript sources of the repository
(`retry-strategy.ts`, `couchbase-service.ts`, `bucket-definition.ts`,
`scope-definition.ts`, `collection-definition.ts`,
`couchbase-configuration.service.ts`, `couchbase-container.ts`) together
with proofs about the provisioning behaviour.  Asynchronous HTTP calls are
embedded as trace-producing total functions; a thrown exception becomes an
explicit error value that short-circuits sequential composition.
-/

namespace Couchbase

/-! ## Strings: substring containment, modelling JavaScript `String.includes` -/

/-- Does the second list occur at the head of the first one? -/
def startsWithList : List Char → List Char → Bool
  | _, [] => true
  | [], _ :: _ => false
  | a :: s, b :: p => a == b && startsWithList s p

/-- Does the second list occur contiguously anywhere inside the first one? -/
def containsList : List Char → List Char → Bool
  | [], pat => pat.isEmpty
  | a :: rest, pat => startsWithList (a :: rest) pat || containsList rest pat

/-- Model of JavaScript `s.includes(pat)`. -/
def strIncludes (s pat : String) : Bool :=
  containsList s.toList pat.toList

/-! ## `retry-strategy.ts`

`IntervalRetryStrategy.retryUntil` repeatedly invokes an async probe until a
predicate holds on its result or a deadline passes.  The embedding makes the
clock explicit: `clock n` is the value returned by the `n`-th `getTime` call
(call `0` is `startTime`; call `k + 1` happens at the `k`-th timeout check,
which the source performs after the `k`-th probe fails the predicate).
`probes k` is the result of the `k`-th invocation of `fn`.  The loop need not
terminate for adversarial clocks, so the embedding takes a fuel bound and the
result additionally records how many times `fn` was invoked. -/

/-- Transcribes `AbstractRetryStrategy.hasTimedOut`:
`this.clock.getTime() - startTime > timeout`. -/
def hasTimedOut (timeout startTime now : Int) : Bool :=
  now - startTime > timeout

/-- Loop of `IntervalRetryStrategy.retryUntil`.  `k` is the index of the probe
invocation performed at the head of this iteration; the returned `Nat` is the
total number of probe invocations made. -/
def retryUntilGo {T U : Type} (probes : Nat → T) (pred : T → Bool) (onT : U)
    (timeout : Int) (clock : Nat → Int) : Nat → Nat → Option ((T ⊕ U) × Nat)
  | _, 0 => none
  | k, fuel + 1 =>
    let r := probes k
    if pred r = true then some (Sum.inl r, k + 1)
    else if hasTimedOut timeout (clock 0) (clock (k + 1)) = true then
      some (Sum.inr onT, k + 1)
    else retryUntilGo probes pred onT timeout clock (k + 1) fuel

/-- Transcribes `IntervalRetryStrategy.retryUntil` (modulo fuel): probe once,
then keep re-probing while the predicate fails, checking the deadline after
each failed predicate test. -/
def retryUntil {T U : Type} (probes : Nat → T) (pred : T → Bool) (onT : U)
    (timeout : Int) (clock : Nat → Int) (fuel : Nat) : Option ((T ⊕ U) × Nat) :=
  retryUntilGo probes pred onT timeout clock 0 fuel

theorem retryUntilGo_found {T U : Type} (probes : Nat → T) (pred : T → Bool)
    (onT : U) (timeout : Int) (clock : Nat → Int) :
    ∀ (n k fuel : Nat), n < fuel →
      pred (probes (k + n)) = true →
      (∀ j, j < n → pred (probes (k + j)) = false) →
      (∀ j, j < n → hasTimedOut timeout (clock 0) (clock (k + j + 1)) = false) →
      retryUntilGo probes pred onT timeout clock k fuel
        = some (Sum.inl (probes (k + n)), k + n + 1) := by
  intro n
  induction n with
  | zero =>
    intro k fuel hfuel hpred _ _
    match fuel, hfuel with
    | fuel + 1, _ =>
      simp only [retryUntilGo]
      simp only [Nat.add_zero] at hpred
      simp [hpred]
  | succ m ih =>
    intro k fuel hfuel hpred hfalse htime
    match fuel, hfuel with
    | fuel + 1, hfuel =>
      have h0 : pred (probes k) = false := by
        have := hfalse 0 (Nat.succ_pos m)
        simpa using this
      have ht0 : hasTimedOut timeout (clock 0) (clock (k + 1)) = false := by
        have := htime 0 (Nat.succ_pos m)
        simpa using this
      simp only [retryUntilGo, h0, ht0]
      have hk : k + (m + 1) = (k + 1) + m := by omega
      rw [hk]
      refine ih (k + 1) fuel (by omega) ?_ ?_ ?_
      · rw [← hk]; exact hpred
      · intro j hj
        have := hfalse (j + 1) (by omega)
        have hkj : k + (j + 1) = (k + 1) + j := by omega
        rwa [hkj] at this
      · intro j hj
        have := htime (j + 1) (by omega)
        have hkj : k + (j + 1) + 1 = (k + 1) + j + 1 := by omega
        rwa [hkj] at this

theorem retryUntilGo_timedOut {T U : Type} (probes : Nat → T) (pred : T → Bool)
    (onT : U) (timeout : Int) (clock : Nat → Int) :
    ∀ (n k fuel : Nat), n < fuel →
      (∀ j, j ≤ n → pred (probes (k + j)) = false) →
      (∀ j, j < n → hasTimedOut timeout (clock 0) (clock (k + j + 1)) = false) →
      hasTimedOut timeout (clock 0) (clock (k + n + 1)) = true →
      retryUntilGo probes pred onT timeout clock k fuel
        = some (Sum.inr onT, k + n + 1) := by
  intro n
  induction n with
  | zero =>
    intro k fuel hfuel hfalse _ htrue
    match fuel, hfuel with
    | fuel + 1, _ =>
      have h0 : pred (probes k) = false := by
        have := hfalse 0 (Nat.le_refl 0)
        simpa using this
      simp only [Nat.add_zero] at htrue
      simp only [retryUntilGo, h0, htrue]
      simp
  | succ m ih =>
    intro k fuel hfuel hfalse htime htrue
    match fuel, hfuel with
    | fuel + 1, hfuel =>
      have h0 : pred (probes k) = false := by
        have := hfalse 0 (Nat.zero_le _)
        simpa using this
      have ht0 : hasTimedOut timeout (clock 0) (clock (k + 1)) = false := by
        have := htime 0 (Nat.succ_pos m)
        simpa using this
      simp only [retryUntilGo, h0, ht0]
      have hk : k + (m + 1) = (k + 1) + m := by omega
      have hk1 : k + (m + 1) + 1 = (k + 1) + m + 1 := by omega
      rw [hk1] at htrue
      rw [hk]
      refine ih (k + 1) fuel (by omega) ?_ ?_ htrue
      · intro j hj
        have := hfalse (j + 1) (by omega)
        have hkj : k + (j + 1) = (k + 1) + j := by omega
        rwa [hkj] at this
      · intro j hj
        have := htime (j + 1) (by omega)
        have hkj : k + (j + 1) + 1 = (k + 1) + j + 1 := by omega
        rwa [hkj] at this

/-- Claim C1: for every probe stream, predicate, onTimeout sentinel and
timeout, `retryUntil` returns the first probe result satisfying the
predicate when that happens before the deadline (every timeout check made
beforehand reports not-timed-out), invoking the probe exactly `N + 1` times —
so the probe is never invoked again once the predicate has held; and it
returns the `onTimeout` sentinel when the predicate never holds before the
deadline, aborting at the first timeout check that fires. -/
theorem retryUntil_spec {T U : Type} (probes : Nat → T) (pred : T → Bool)
    (onT : U) (timeout : Int) (clock : Nat → Int) (fuel : Nat) :
    (∀ N, N < fuel → pred (probes N) = true →
      (∀ k, k < N → pred (probes k) = false) →
      (∀ k, k < N → hasTimedOut timeout (clock 0) (clock (k + 1)) = false) →
      retryUntil probes pred onT timeout clock fuel
        = some (Sum.inl (probes N), N + 1))
    ∧
    (∀ K, K < fuel →
      (∀ k, k ≤ K → pred (probes k) = false) →
      (∀ k, k < K → hasTimedOut timeout (clock 0) (clock (k + 1)) = false) →
      hasTimedOut timeout (clock 0) (clock (K + 1)) = true →
      retryUntil probes pred onT timeout clock fuel
        = some (Sum.inr onT, K + 1)) := by
  constructor
  · intro N hN hpred hfalse htime
    have := retryUntilGo_found probes pred onT timeout clock N 0 fuel hN
      (by simpa using hpred) (by simpa using hfalse) (by simpa using htime)
    simpa [retryUntil] using this
  · intro K hK hfalse htime htrue
    have := retryUntilGo_timedOut probes pred onT timeout clock K 0 fuel hK
      (by simpa using hfalse) (by simpa using htime) (by simpa using htrue)
    simpa [retryUntil] using this

/-- Witness for C1 at concrete inputs: with probe stream `0, 1, 2, ...` and
predicate "equals 2", the poller returns `2` after exactly three probe calls;
with a never-satisfied predicate and a clock advancing 500 per call against a
1000 timeout, it returns the sentinel `42` after three probe calls. -/
theorem retryUntil_spec_witness :
    retryUntil (fun n => n) (fun r => r == 2) (42 : Nat) 1000
        (fun n => (n : Int)) 10 = some (Sum.inl 2, 3) ∧
    retryUntil (fun _ => (0 : Nat)) (fun r => r == 2) (42 : Nat) 1000
        (fun n => (500 * n : Int)) 10 = some (Sum.inr 42, 3) := by
  constructor
  · exact (retryUntil_spec (fun n => n) (fun r => r == 2) (42 : Nat) 1000
      (fun n => (n : Int)) 10).1 2 (by decide) (by decide) (by decide) (by decide)
  · exact (retryUntil_spec (fun _ => (0 : Nat)) (fun r => r == 2) (42 : Nat) 1000
      (fun n => (500 * n : Int)) 10).2 2 (by decide) (by decide) (by decide) (by decide)

/-! ## `couchbase-service.ts`

The six service singletons, each carrying a wire identifier and a fixed
minimum memory quota in MB. -/

structure CouchbaseService where
  identifier : String
  minimumQuotaMb : Int
deriving DecidableEq

namespace CouchbaseService

def KV : CouchbaseService := ⟨"kv", 256⟩

def QUERY : CouchbaseService := ⟨"n1ql", 0⟩

def SEARCH : CouchbaseService := ⟨"fts", 256⟩

def INDEX : CouchbaseService := ⟨"index", 256⟩

def ANALYTICS : CouchbaseService := ⟨"cbas", 1024⟩

def EVENTING : CouchbaseService := ⟨"eventing", 256⟩

/-- Transcribes `hasQuota`: `this.minimumQuotaMb > 0`. -/
def hasQuota (s : CouchbaseService) : Bool :=
  s.minimumQuotaMb > 0

def getMinimumQuotaMb (s : CouchbaseService) : Int :=
  s.minimumQuotaMb

def getIdentifier (s : CouchbaseService) : String :=
  s.identifier

end CouchbaseService

/-! ## Entity model: `collection-definition.ts`, `scope-definition.ts`,
`bucket-definition.ts`

In the source these are mutable builder classes whose setters return `this`;
the embedding uses immutable records whose setters return the updated record.
A failed `assert.ok` throws before the field assignment runs, embedded as an
`Except.error` that returns no updated record. -/

structure CollectionDefinition where
  name : String
  maxTTL : Int
  queryPrimaryIndex : Bool
  secondaryIndexes : List String
deriving DecidableEq

namespace CollectionDefinition

/-- The constructor `new CollectionDefinition(name)` with the field
initializers of the class body. -/
def make (name : String) : CollectionDefinition :=
  { name := name, maxTTL := 0, queryPrimaryIndex := true, secondaryIndexes := [] }

def withMaxTTL (c : CollectionDefinition) (ttl : Int) : CollectionDefinition :=
  { c with maxTTL := ttl }

def withPrimaryIndex (c : CollectionDefinition) (create : Bool) : CollectionDefinition :=
  { c with queryPrimaryIndex := create }

def withSecondaryIndex (c : CollectionDefinition) (indexDefinition : String) :
    CollectionDefinition :=
  { c with secondaryIndexes := c.secondaryIndexes ++ [indexDefinition] }

def getName (c : CollectionDefinition) : String := c.name

def getMaxTTL (c : CollectionDefinition) : Int := c.maxTTL

def hasPrimaryIndex (c : CollectionDefinition) : Bool := c.queryPrimaryIndex

def getSecondaryIndexes (c : CollectionDefinition) : List String := c.secondaryIndexes

/-- Transcribes `hasSecondaryIndexes`: `this.#secondaryIndexes.length > 0`. -/
def hasSecondaryIndexes (c : CollectionDefinition) : Bool :=
  c.secondaryIndexes.length > 0

end CollectionDefinition

/-- Insertion of a value into a JavaScript `Map` keyed by a name: replacing an
existing entry keeps its position, otherwise the value is appended.  The
entity maps are embedded as their value lists in insertion order. -/
def mapSet {α : Type} (key : α → String) : List α → α → List α
  | [], v => [v]
  | x :: xs, v => if key x = key v then v :: xs else x :: mapSet key xs v

structure ScopeDefinition where
  name : String
  collections : List CollectionDefinition
deriving DecidableEq

namespace ScopeDefinition

def make (name : String) : ScopeDefinition :=
  { name := name, collections := [] }

def withCollection (s : ScopeDefinition) (c : CollectionDefinition) : ScopeDefinition :=
  { s with collections := mapSet CollectionDefinition.getName s.collections c }

def getName (s : ScopeDefinition) : String := s.name

def getCollections (s : ScopeDefinition) : List CollectionDefinition := s.collections

end ScopeDefinition

structure BucketDefinition where
  name : String
  flushEnabled : Bool
  queryPrimaryIndex : Bool
  quota : Int
  scopes : List ScopeDefinition
deriving DecidableEq

namespace BucketDefinition

/-- The constructor `new BucketDefinition(name)` with the field initializers
of the class body (`#flushEnabled = false`, `#queryPrimaryIndex = true`,
`#quota = 100`, empty scope map). -/
def make (name : String) : BucketDefinition :=
  { name := name, flushEnabled := false, queryPrimaryIndex := true,
    quota := 100, scopes := [] }

def withFlushEnabled (b : BucketDefinition) (flushEnabled : Bool) : BucketDefinition :=
  { b with flushEnabled := flushEnabled }

/-- Transcribes `withQuota`: `assert.ok(quota >= 100, ...)` then
`this.#quota = quota`; the failed assertion throws before the assignment. -/
def withQuota (b : BucketDefinition) (quota : Int) : Except String BucketDefinition :=
  if quota ≥ 100 then Except.ok { b with quota := quota }
  else Except.error "Bucket quota cannot be less than 100MB!"

def withPrimaryIndex (b : BucketDefinition) (create : Bool) : BucketDefinition :=
  { b with queryPrimaryIndex := create }

def withScope (b : BucketDefinition) (s : ScopeDefinition) : BucketDefinition :=
  { b with scopes := mapSet ScopeDefinition.getName b.scopes s }

def hasPrimaryIndex (b : BucketDefinition) : Bool := b.queryPrimaryIndex

/-- Transcribes the getter `hasScopes`: `this.#scopes.size > 0`. -/
def hasScopes (b : BucketDefinition) : Bool :=
  b.scopes.length > 0

end BucketDefinition

/-- The bucket definitions constructible through the public builder API: the
constructor followed by any sequence of setter calls, where a `withQuota`
call contributes only when its assertion passed. -/
inductive BucketReachable : BucketDefinition → Prop
  | make (name : String) : BucketReachable (BucketDefinition.make name)
  | flush (b : BucketDefinition) (f : Bool) :
      BucketReachable b → BucketReachable (b.withFlushEnabled f)
  | primaryIdx (b : BucketDefinition) (c : Bool) :
      BucketReachable b → BucketReachable (b.withPrimaryIndex c)
  | addScope (b : BucketDefinition) (s : ScopeDefinition) :
      BucketReachable b → BucketReachable (b.withScope s)
  | quotaOk (b : BucketDefinition) (q : Int) (b' : BucketDefinition) :
      BucketReachable b → b.withQuota q = Except.ok b' → BucketReachable b'

/-- Claim C8: a fresh `BucketDefinition` has quota 100 (the default); a
`withQuota` call below 100 fails with the assertion error, producing no
updated definition; consequently every bucket definition constructible
through the builder API satisfies `quota ≥ 100`. -/
theorem bucketQuota_spec :
    (∀ name, (BucketDefinition.make name).quota = 100)
    ∧ (∀ (b : BucketDefinition) (q : Int), q < 100 →
        b.withQuota q = Except.error "Bucket quota cannot be less than 100MB!")
    ∧ (∀ b : BucketDefinition, BucketReachable b → 100 ≤ b.quota) := by
  refine ⟨fun _ => rfl, ?_, ?_⟩
  · intro b q hq
    simp [BucketDefinition.withQuota]
    omega
  · intro b hb
    induction hb with
    | make name => simp [BucketDefinition.make]
    | flush b f _ ih => simpa [BucketDefinition.withFlushEnabled] using ih
    | primaryIdx b c _ ih => simpa [BucketDefinition.withPrimaryIndex] using ih
    | addScope b s _ ih => simpa [BucketDefinition.withScope] using ih
    | quotaOk b q b' _ hq _ =>
      simp only [BucketDefinition.withQuota] at hq
      split at hq
      next h => cases hq; simpa using h
      next h => cases hq

/-- Witness for C8 at concrete inputs: quota 50 is rejected by the assertion,
and a definition built through the builder API has quota at least 100. -/
theorem bucketQuota_spec_witness :
    ((BucketDefinition.make "b1").withQuota 50
      = Except.error "Bucket quota cannot be less than 100MB!")
    ∧ 100 ≤ (BucketDefinition.make "b1").quota := by
  refine ⟨bucketQuota_spec.2.1 (BucketDefinition.make "b1") 50 (by decide), ?_⟩
  exact bucketQuota_spec.2.2 (BucketDefinition.make "b1") (BucketReachable.make "b1")

/-! ## `couchbase-container.ts`: the container builder state -/

/-- The `CouchbaseContainer` fields seen through `CouchbaseContainerFacade`:
admin credentials, bucket definitions, enabled services, custom quotas and
the once-written `isEnterprise` flag.  The two `Map`/`Set` fields are
embedded as a lookup function and an insertion-order list. -/
structure ContainerState where
  username : String
  userPassword : String
  buckets : List BucketDefinition
  enabledServices : List CouchbaseService
  customServiceQuotas : CouchbaseService → Option Int
  isEnterprise : Bool

/-- Transcribes `CouchbaseContainer.withServiceQuota`:
`assert.ok(service.hasQuota(), ...)`, then
`assert.ok(quotaMb >= service.getMinimumQuotaMb(), ...)`, then
`this.customServiceQuotas.set(service, quotaMb)`. -/
def withServiceQuota (c : ContainerState) (service : CouchbaseService)
    (quotaMb : Int) : Except String ContainerState :=
  if ¬ service.hasQuota = true then
    Except.error "The provided service has no quota to configure"
  else if ¬ quotaMb ≥ service.getMinimumQuotaMb then
    Except.error "The custom quota must not be smaller than the minimum quota for the service"
  else
    Except.ok { c with customServiceQuotas :=
      fun s => if s = service then some quotaMb else c.customServiceQuotas s }

/-- Claim C10: `withServiceQuota` fails with the no-quota assertion for every
service whose minimum quota is zero (such as QUERY); for a service with a
positive minimum it fails with the minimum-quota assertion whenever the
requested quota is strictly below the minimum; otherwise it records the
custom quota for that service and leaves every other part of the container
state unchanged. -/
theorem withServiceQuota_spec (c : ContainerState) (service : CouchbaseService)
    (q : Int) :
    (service.minimumQuotaMb = 0 →
      withServiceQuota c service q
        = Except.error "The provided service has no quota to configure")
    ∧ (0 < service.minimumQuotaMb → q < service.minimumQuotaMb →
      withServiceQuota c service q
        = Except.error "The custom quota must not be smaller than the minimum quota for the service")
    ∧ (0 < service.minimumQuotaMb → service.minimumQuotaMb ≤ q →
      withServiceQuota c service q
        = Except.ok { c with customServiceQuotas :=
            fun s => if s = service then some q else c.customServiceQuotas s }) := by
  refine ⟨?_, ?_, ?_⟩
  · intro h0
    simp [withServiceQuota, CouchbaseService.hasQuota, h0]
  · intro hpos hlt
    simp [withServiceQuota, CouchbaseService.hasQuota, CouchbaseService.getMinimumQuotaMb,
      hpos]
    omega
  · intro hpos hge
    simp [withServiceQuota, CouchbaseService.hasQuota, CouchbaseService.getMinimumQuotaMb,
      hpos, hge]

/-- Concrete container state used by witnesses. -/
def sampleContainer : ContainerState :=
  { username := "Administrator", userPassword := "password", buckets := [],
    enabledServices := [CouchbaseService.KV, CouchbaseService.QUERY,
      CouchbaseService.SEARCH, CouchbaseService.INDEX],
    customServiceQuotas := fun _ => none, isEnterprise := false }

/-- Witness for C10 at concrete inputs: QUERY (minimum quota 0) is rejected,
KV at 100 (below its minimum 256) is rejected, KV at 512 is recorded. -/
theorem withServiceQuota_spec_witness :
    (withServiceQuota sampleContainer CouchbaseService.QUERY 256
      = Except.error "The provided service has no quota to configure")
    ∧ (withServiceQuota sampleContainer CouchbaseService.KV 100
      = Except.error "The custom quota must not be smaller than the minimum quota for the service")
    ∧ (withServiceQuota sampleContainer CouchbaseService.KV 512
      = Except.ok { sampleContainer with customServiceQuotas :=
          fun s => if s = CouchbaseService.KV then some 512
                   else sampleContainer.customServiceQuotas s }) := by
  refine ⟨?_, ?_, ?_⟩
  · exact (withServiceQuota_spec sampleContainer CouchbaseService.QUERY 256).1 (by decide)
  · exact (withServiceQuota_spec sampleContainer CouchbaseService.KV 100).2.1
      (by decide) (by decide)
  · exact (withServiceQuota_spec sampleContainer CouchbaseService.KV 512).2.2
      (by decide) (by decide)

/-! ## `setMemoryQuotas` (QuotasSet phase) -/

/-- Transcribes the `forEach` body of
`CouchbaseConfigurationService.setMemoryQuotas`: skip services without a
quota; resolve the quota as the custom override if present, else the service
minimum; KV is submitted as `memoryQuota`, every other service as
`<identifier>MemoryQuota`.  The resulting parameter list is in iteration
order of the enabled-service set. -/
def setMemoryQuotasParams (custom : CouchbaseService → Option Int) :
    List CouchbaseService → List (String × Int)
  | [] => []
  | service :: rest =>
    if ¬ service.hasQuota = true then setMemoryQuotasParams custom rest
    else
      let quota := match custom service with
        | some q => q
        | none => service.getMinimumQuotaMb
      (if CouchbaseService.KV = service then ("memoryQuota", quota)
       else (service.getIdentifier ++ "MemoryQuota", quota))
        :: setMemoryQuotasParams custom rest

/-- Claim C6: the submitted quota parameters are exactly one per enabled
service with nonzero minimum quota (zero-quota services contribute no
parameter), each carrying the custom override when present and the fixed
minimum otherwise, under the name `memoryQuota` for KV and
`<identifier>MemoryQuota` for every other service. -/
theorem setMemoryQuotas_spec (custom : CouchbaseService → Option Int)
    (enabled : List CouchbaseService) :
    setMemoryQuotasParams custom enabled =
      (enabled.filter (fun s => s.hasQuota)).map
        (fun s =>
          ((if CouchbaseService.KV = s then "memoryQuota"
            else s.getIdentifier ++ "MemoryQuota"),
           (custom s).getD s.getMinimumQuotaMb)) := by
  induction enabled with
  | nil => rfl
  | cons service rest ih =>
    by_cases hq : service.hasQuota = true
    · cases hc : custom service <;>
        by_cases hkv : CouchbaseService.KV = service <;>
          simp [setMemoryQuotasParams, List.filter_cons, hq, hc, hkv, ih]
    · simp [setMemoryQuotasParams, List.filter_cons, hq, ih]

/-! ## `couchbase-configuration.service.ts`: trace semantics

Every HTTP call made by `CouchbaseConfigurationService` is embedded as an
`Action`; a method becomes a function producing the list of actions it
performs together with an optional error (the thrown exception message).
Sequential `await` composition short-circuits on error; `Promise.all`
fan-out performs all branches and surfaces the first error.  The
environment `QueryEnv` supplies the discovered edition and the outcome of
each index-creation call (`none` = the call resolved, `some msg` = the call
rejected with an error whose message is `msg`); all other calls and polls
are taken to succeed. -/

inductive Action where
  | getPools
  | renameNode
  | setupServices (csv : String)
  | setQuotas (params : List (String × Int))
  | setAdminUser (username : String)
  | setupExternalPorts
  | setIndexerStorage (storageMode : String)
  | createBucketCall (bucket : String)
  | waitServicesVisible (bucket : String)
  | waitKeyspaceVisible (bucket : String)
  | buildPrimaryIdx (bucket : String)
  | waitPrimaryIdxOnline (bucket : String)
  | createScopeCall (bucket scope : String)
  | createCollectionCall (bucket scope coll : String)
  | waitKeyspaceVisibleColl (bucket scope coll : String)
  | buildPrimaryIdxColl (bucket scope coll : String)
  | waitPrimaryIdxOnlineColl (bucket scope coll : String)
  | buildSecondaryIdxColl (bucket scope coll ddl : String)
  | waitSecondaryIdxOnlineColl (bucket scope coll : String)
deriving DecidableEq

/-- A finished (sub-)computation: the actions it performed, and the error it
rejected with, if any. -/
structure TR where
  trace : List Action
  err : Option String
deriving DecidableEq

namespace TR

def act (a : Action) : TR := ⟨[a], none⟩

def skip : TR := ⟨[], none⟩

/-- Sequential composition (`await a; await b`): if `a` threw, `b` never
runs. -/
def seq (a b : TR) : TR :=
  match a.err with
  | some _ => a
  | none => ⟨a.trace ++ b.trace, b.err⟩

/-- `Promise.all` of two branches: both run in full; the first error (in
branch order) becomes the error of the join. -/
def par (a b : TR) : TR :=
  ⟨a.trace ++ b.trace, a.err.orElse (fun _ => b.err)⟩

def parAll (ts : List TR) : TR :=
  ts.foldr par skip

end TR

/-- The environment a provisioning run executes against. -/
structure QueryEnv where
  isEnterprise : Bool
  bucketPrimaryIdxOutcome : String → Option String
  collPrimaryIdxOutcome : String → String → String → Option String
  collSecondaryIdxOutcome : String → String → String → String → Option String

/-- The message fragment recognized by `buildPrimaryIndex` (bucket level). -/
def bucketDeferredMsg : String := "will retry building in the background"

/-- The message fragment recognized by `buildPrimaryIndexForCollection` and
`buildSecondaryIndexForCollection`. -/
def collDeferredMsg : String := "Index creation will be retried in background"

/-- Transcribes the `try`/`catch` of
`CouchbaseConfigurationService.buildPrimaryIndex`: a rejected call whose
error message includes the background-build fragment is swallowed; any other
rejection is re-thrown. -/
def buildPrimaryIndexResult (outcome : Option String) : Except String Unit :=
  match outcome with
  | none => Except.ok ()
  | some msg =>
    if strIncludes msg bucketDeferredMsg = true then Except.ok ()
    else Except.error msg

/-- Transcribes the `try`/`catch` of `buildPrimaryIndexForCollection`: the
decisive test is whether the error message includes the collection-level
background-build fragment; otherwise the error is re-thrown. -/
def buildPrimaryIndexForCollectionResult (outcome : Option String) : Except String Unit :=
  match outcome with
  | none => Except.ok ()
  | some msg =>
    if strIncludes msg collDeferredMsg = true then Except.ok ()
    else Except.error msg

/-- Transcribes the `try`/`catch` of `buildSecondaryIndexForCollection`,
identical in shape to the collection-level primary-index handler. -/
def buildSecondaryIndexForCollectionResult (outcome : Option String) : Except String Unit :=
  match outcome with
  | none => Except.ok ()
  | some msg =>
    if strIncludes msg collDeferredMsg = true then Except.ok ()
    else Except.error msg

def exceptErr : Except String Unit → Option String
  | Except.ok _ => none
  | Except.error m => some m

def buildPrimaryIndexTR (env : QueryEnv) (bucket : String) : TR :=
  ⟨[Action.buildPrimaryIdx bucket],
   exceptErr (buildPrimaryIndexResult (env.bucketPrimaryIdxOutcome bucket))⟩

def buildPrimaryIndexForCollectionTR (env : QueryEnv) (bucket scope coll : String) : TR :=
  ⟨[Action.buildPrimaryIdxColl bucket scope coll],
   exceptErr (buildPrimaryIndexForCollectionResult
     (env.collPrimaryIdxOutcome bucket scope coll))⟩

def buildSecondaryIndexForCollectionTR (env : QueryEnv)
    (bucket scope coll ddl : String) : TR :=
  ⟨[Action.buildSecondaryIdxColl bucket scope coll ddl],
   exceptErr (buildSecondaryIndexForCollectionResult
     (env.collSecondaryIdxOutcome bucket scope coll ddl))⟩

/-- Transcribes `createCollection`: create the collection, then — gated on
the QUERY service and the collection flags — keyspace poll, primary-index
build and poll, secondary-index builds (fanned out) and poll. -/
def createCollectionTR (enabled : List CouchbaseService) (env : QueryEnv)
    (bucket : BucketDefinition) (scope : ScopeDefinition)
    (coll : CollectionDefinition) : TR :=
  (TR.act (Action.createCollectionCall bucket.name scope.getName coll.getName)).seq <|
  ((if CouchbaseService.QUERY ∈ enabled then
      TR.act (Action.waitKeyspaceVisibleColl bucket.name scope.getName coll.getName)
    else TR.skip).seq <|
  ((if coll.hasPrimaryIndex = true then
      if CouchbaseService.QUERY ∈ enabled then
        (buildPrimaryIndexForCollectionTR env bucket.name scope.getName coll.getName).seq
          (TR.act (Action.waitPrimaryIdxOnlineColl bucket.name scope.getName coll.getName))
      else TR.skip
    else TR.skip).seq
  (if coll.hasSecondaryIndexes = true then
      if CouchbaseService.QUERY ∈ enabled then
        (TR.parAll (coll.getSecondaryIndexes.map (fun ddl =>
            buildSecondaryIndexForCollectionTR env bucket.name scope.getName
              coll.getName ddl))).seq
          (TR.act (Action.waitSecondaryIdxOnlineColl bucket.name scope.getName coll.getName))
      else TR.skip
    else TR.skip)))

/-- Transcribes `createCollections`: fan out over the scope's collections. -/
def createCollectionsTR (enabled : List CouchbaseService) (env : QueryEnv)
    (bucket : BucketDefinition) (scope : ScopeDefinition) : TR :=
  TR.parAll (scope.getCollections.map (createCollectionTR enabled env bucket scope))

/-- Transcribes `createScope`: create the scope, then its collections. -/
def createScopeTR (enabled : List CouchbaseService) (env : QueryEnv)
    (bucket : BucketDefinition) (scope : ScopeDefinition) : TR :=
  (TR.act (Action.createScopeCall bucket.name scope.getName)).seq
    (createCollectionsTR enabled env bucket scope)

/-- Transcribes `createScopes`: fan out over the bucket's scopes. -/
def createScopesTR (enabled : List CouchbaseService) (env : QueryEnv)
    (bucket : BucketDefinition) : TR :=
  TR.parAll (bucket.scopes.map (createScopeTR enabled env bucket))

/-- Transcribes `createBucket`: create the bucket, wait for its services,
then — gated on QUERY and `hasPrimaryIndex` — keyspace poll and
primary-index build and poll, then the scopes. -/
def createBucketTR (enabled : List CouchbaseService) (env : QueryEnv)
    (bucket : BucketDefinition) : TR :=
  (TR.act (Action.createBucketCall bucket.name)).seq <|
  ((TR.act (Action.waitServicesVisible bucket.name)).seq <|
  ((if CouchbaseService.QUERY ∈ enabled then
      TR.act (Action.waitKeyspaceVisible bucket.name)
    else TR.skip).seq <|
  ((if bucket.hasPrimaryIndex = true then
      if CouchbaseService.QUERY ∈ enabled then
        (buildPrimaryIndexTR env bucket.name).seq
          (TR.act (Action.waitPrimaryIdxOnline bucket.name))
      else TR.skip
    else TR.skip).seq
  (if bucket.hasScopes = true then createScopesTR enabled env bucket else TR.skip))))

/-- Transcribes `createBuckets`: fan out over all bucket definitions. -/
def createBucketsTR (enabled : List CouchbaseService) (env : QueryEnv)
    (buckets : List BucketDefinition) : TR :=
  TR.parAll (buckets.map (createBucketTR enabled env))

/-- The comma-joined service identifier list of `initializeServices`. -/
def servicesCsv (enabled : List CouchbaseService) : String :=
  String.intercalate "," (enabled.map CouchbaseService.getIdentifier)

def untilNodeIsOnlineTR : TR := TR.act Action.getPools

/-- Transcribes `initializeIsEnterprise`: re-read `/pools`, record the
edition, and — when the edition is not enterprise — throw if ANALYTICS or
EVENTING is among the enabled services. -/
def initIsEnterpriseTR (enabled : List CouchbaseService) (env : QueryEnv) : TR :=
  ⟨[Action.getPools],
   if env.isEnterprise = true then none
   else if CouchbaseService.ANALYTICS ∈ enabled then
     some "The Analytics Service is only supported with the Enterprise version"
   else if CouchbaseService.EVENTING ∈ enabled then
     some "The Eventing Service is only supported with the Enterprise version"
   else none⟩

/-- Transcribes `configureIndexer`: submit the storage mode,
`memory_optimized` for enterprise and `forestdb` otherwise. -/
def configureIndexerTR (env : QueryEnv) : TR :=
  TR.act (Action.setIndexerStorage
    (if env.isEnterprise = true then "memory_optimized" else "forestdb"))

/-- Transcribes `configureCluster`: the strictly sequential bootstrap chain,
ending with the indexer configuration when INDEX is enabled. -/
def configureClusterTR (username : String) (enabled : List CouchbaseService)
    (custom : CouchbaseService → Option Int) (env : QueryEnv) : TR :=
  untilNodeIsOnlineTR.seq <|
  ((initIsEnterpriseTR enabled env).seq <|
  ((TR.act Action.renameNode).seq <|
  ((TR.act (Action.setupServices (servicesCsv enabled))).seq <|
  ((TR.act (Action.setQuotas (setMemoryQuotasParams custom enabled))).seq <|
  ((TR.act (Action.setAdminUser username)).seq <|
  ((TR.act Action.setupExternalPorts).seq
  (if CouchbaseService.INDEX ∈ enabled then configureIndexerTR env else TR.skip)))))))

/-- Transcribes `CouchbaseContainer.postStart`: `configureCluster` then
`createBuckets`. -/
def postStartTR (username : String) (enabled : List CouchbaseService)
    (custom : CouchbaseService → Option Int) (buckets : List BucketDefinition)
    (env : QueryEnv) : TR :=
  (configureClusterTR username enabled custom env).seq
    (createBucketsTR enabled env buckets)

/-! ## Basic lemmas about trace composition -/

theorem TR.seq_trace_mem {a b : TR} {x : Action} (h : x ∈ (a.seq b).trace) :
    x ∈ a.trace ∨ x ∈ b.trace := by
  cases he : a.err <;> simp [TR.seq, he] at h <;> tauto

theorem TR.par_trace_mem {a b : TR} {x : Action} (h : x ∈ (a.par b).trace) :
    x ∈ a.trace ∨ x ∈ b.trace := by
  simpa [TR.par] using h

theorem TR.parAll_trace_mem {ts : List TR} {x : Action}
    (h : x ∈ (TR.parAll ts).trace) : ∃ t ∈ ts, x ∈ t.trace := by
  induction ts with
  | nil => simp [TR.parAll, TR.skip] at h
  | cons t ts ih =>
    rcases TR.par_trace_mem (h : x ∈ (t.par (TR.parAll ts)).trace) with h1 | h2
    · exact ⟨t, by simp, h1⟩
    · rcases ih h2 with ⟨u, hu, hx⟩
      exact ⟨u, by simp [hu], hx⟩

theorem TR.seq_trace_of_ok {a b : TR} (ha : a.err = none) :
    (a.seq b).trace = a.trace ++ b.trace := by
  simp [TR.seq, ha]

theorem TR.seq_err_of_left {a b : TR} {m : String} (ha : a.err = some m) :
    (a.seq b).err = some m := by
  simp [TR.seq, ha]

theorem TR.seq_err_of_ok {a b : TR} (ha : a.err = none) :
    (a.seq b).err = b.err := by
  simp [TR.seq, ha]

theorem TR.mem_seq_left {a b : TR} {x : Action} (hx : x ∈ a.trace) :
    x ∈ (a.seq b).trace := by
  cases he : a.err <;> simp [TR.seq, he, hx]

theorem TR.mem_seq_right {a b : TR} (ha : a.err = none) {x : Action}
    (hx : x ∈ b.trace) : x ∈ (a.seq b).trace := by
  simp [TR.seq, ha, hx]

theorem TR.parAll_err_none {ts : List TR} (h : ∀ t ∈ ts, t.err = none) :
    (TR.parAll ts).err = none := by
  induction ts with
  | nil => rfl
  | cons t ts ih =>
    have ht : t.err = none := h t (by simp)
    have hrest : (TR.parAll ts).err = none := ih (fun u hu => h u (by simp [hu]))
    show (t.par (TR.parAll ts)).err = none
    simp [TR.par, ht, hrest, Option.orElse]

/-! ## Claim C3: edition gating -/

/-- Claim C3: when the discovered edition is not enterprise and ANALYTICS or
EVENTING is among the enabled services, the whole `postStart` fails with the
corresponding edition-mismatch error and its trace contains no bucket-create
call at all. -/
theorem editionGate_spec (username : String) (enabled : List CouchbaseService)
    (custom : CouchbaseService → Option Int) (buckets : List BucketDefinition)
    (env : QueryEnv) (hEd : env.isEnterprise = false)
    (hSvc : CouchbaseService.ANALYTICS ∈ enabled ∨ CouchbaseService.EVENTING ∈ enabled) :
    ((postStartTR username enabled custom buckets env).err
        = some "The Analytics Service is only supported with the Enterprise version"
      ∨ (postStartTR username enabled custom buckets env).err
        = some "The Eventing Service is only supported with the Enterprise version")
    ∧ ∀ b, Action.createBucketCall b ∉ (postStartTR username enabled custom buckets env).trace := by
  by_cases hA : CouchbaseService.ANALYTICS ∈ enabled
  · have hTR : postStartTR username enabled custom buckets env
        = ⟨[Action.getPools, Action.getPools],
           some "The Analytics Service is only supported with the Enterprise version"⟩ := by
      simp [postStartTR, configureClusterTR, untilNodeIsOnlineTR, initIsEnterpriseTR,
        TR.seq, TR.act, hEd, hA]
    rw [hTR]
    exact ⟨Or.inl rfl, by intro b hb; simp at hb⟩
  · have hE : CouchbaseService.EVENTING ∈ enabled := hSvc.resolve_left hA
    have hTR : postStartTR username enabled custom buckets env
        = ⟨[Action.getPools, Action.getPools],
           some "The Eventing Service is only supported with the Enterprise version"⟩ := by
      simp [postStartTR, configureClusterTR, untilNodeIsOnlineTR, initIsEnterpriseTR,
        TR.seq, TR.act, hEd, hA, hE]
    rw [hTR]
    exact ⟨Or.inr rfl, by intro b hb; simp at hb⟩

/-- Witness for C3 at a concrete cluster spec: a community-edition run with
ANALYTICS enabled and one configured bucket fails with the Analytics
edition-mismatch error and its trace is just the two `/pools` reads — no
bucket-create call. -/
theorem editionGate_spec_witness :
    ((postStartTR "Administrator"
        [CouchbaseService.KV, CouchbaseService.ANALYTICS] (fun _ => none)
        [BucketDefinition.make "b1"]
        ⟨false, fun _ => none, fun _ _ _ => none, fun _ _ _ _ => none⟩).err
      = some "The Analytics Service is only supported with the Enterprise version"
      ∨ (postStartTR "Administrator"
        [CouchbaseService.KV, CouchbaseService.ANALYTICS] (fun _ => none)
        [BucketDefinition.make "b1"]
        ⟨false, fun _ => none, fun _ _ _ => none, fun _ _ _ _ => none⟩).err
      = some "The Eventing Service is only supported with the Enterprise version")
    ∧ ∀ b, Action.createBucketCall b ∉
        (postStartTR "Administrator"
          [CouchbaseService.KV, CouchbaseService.ANALYTICS] (fun _ => none)
          [BucketDefinition.make "b1"]
          ⟨false, fun _ => none, fun _ _ _ => none, fun _ _ _ _ => none⟩).trace :=
  editionGate_spec "Administrator"
    [CouchbaseService.KV, CouchbaseService.ANALYTICS] (fun _ => none)
    [BucketDefinition.make "b1"]
    ⟨false, fun _ => none, fun _ _ _ => none, fun _ _ _ _ => none⟩
    rfl (Or.inl (by decide))

/-! ## Claim C7: indexer configuration -/

/-- Claim C7: on a bootstrap run that completes, the indexer-configuration
call appears in the trace exactly when the INDEX service is enabled, and any
indexer-configuration call in the trace submits `memory_optimized` for an
enterprise edition and `forestdb` otherwise. -/
theorem configureIndexer_spec (username : String) (enabled : List CouchbaseService)
    (custom : CouchbaseService → Option Int) (env : QueryEnv)
    (hOk : (configureClusterTR username enabled custom env).err = none) :
    (Action.setIndexerStorage
        (if env.isEnterprise = true then "memory_optimized" else "forestdb")
        ∈ (configureClusterTR username enabled custom env).trace
      ↔ CouchbaseService.INDEX ∈ enabled)
    ∧ ∀ m, Action.setIndexerStorage m ∈ (configureClusterTR username enabled custom env).trace →
        m = (if env.isEnterprise = true then "memory_optimized" else "forestdb") := by
  cases hi : (initIsEnterpriseTR enabled env).err with
  | some m =>
    exfalso
    rw [configureClusterTR] at hOk
    rw [TR.seq_err_of_ok (by rfl), TR.seq_err_of_left hi] at hOk
    cases hOk
  | none =>
    have hgt : (initIsEnterpriseTR enabled env).trace = [Action.getPools] := rfl
    have htr : (configureClusterTR username enabled custom env).trace
        = [Action.getPools, Action.getPools, Action.renameNode,
           Action.setupServices (servicesCsv enabled),
           Action.setQuotas (setMemoryQuotasParams custom enabled),
           Action.setAdminUser username, Action.setupExternalPorts]
          ++ (if CouchbaseService.INDEX ∈ enabled then
                [Action.setIndexerStorage
                  (if env.isEnterprise = true then "memory_optimized" else "forestdb")]
              else []) := by
      by_cases hI : CouchbaseService.INDEX ∈ enabled <;>
        simp [configureClusterTR, untilNodeIsOnlineTR, configureIndexerTR,
          TR.seq, TR.act, TR.skip, hi, hgt, hI]
    rw [htr]
    constructor
    · by_cases hI : CouchbaseService.INDEX ∈ enabled <;> simp [hI]
    · intro m hm
      by_cases hI : CouchbaseService.INDEX ∈ enabled <;> simp [hI] at hm
      exact hm

/-- Witness for C7 at a concrete cluster spec: with INDEX enabled on a
community edition, a completed bootstrap contains the indexer call and its
storage mode is `forestdb`. -/
theorem configureIndexer_spec_witness :
    (Action.setIndexerStorage "forestdb"
      ∈ (configureClusterTR "Administrator"
          [CouchbaseService.KV, CouchbaseService.INDEX] (fun _ => none)
          ⟨false, fun _ => none, fun _ _ _ => none, fun _ _ _ _ => none⟩).trace
      ↔ CouchbaseService.INDEX ∈ [CouchbaseService.KV, CouchbaseService.INDEX]) :=
  (configureIndexer_spec "Administrator"
    [CouchbaseService.KV, CouchbaseService.INDEX] (fun _ => none)
    ⟨false, fun _ => none, fun _ _ _ => none, fun _ _ _ _ => none⟩ rfl).1

/-! ## Claim C9: the secondary-index online predicate -/

/-- A row returned by the `system:indexes` query of
`waitForCollectionSecondaryIndexesOnline`. -/
structure IndexRow where
  state : String
deriving DecidableEq

/-- Transcribes the predicate of `waitForCollectionSecondaryIndexesOnline`:
the optional chain over `result.data?.results` followed by
`every((r) => r.state === 'online')`, with the ternary collapsing an absent
results field to `false`. -/
def secondaryIndexesOnline (results : Option (List IndexRow)) : Bool :=
  match results with
  | none => false
  | some rows => rows.all (fun r => r.state == "online")

/-- Claim C9: the secondary-index online predicate holds on an empty results
array (vacuously — the poll can succeed with zero rows), and it is false
exactly when the results field is absent or some returned row has a state
other than `online`. -/
theorem secondaryIndexesOnline_spec :
    secondaryIndexesOnline (some []) = true
    ∧ ∀ results, secondaryIndexesOnline results = false ↔
        (results = none
          ∨ ∃ rows, results = some rows ∧ ∃ r ∈ rows, r.state ≠ "online") := by
  refine ⟨rfl, ?_⟩
  intro results
  cases results with
  | none => simp [secondaryIndexesOnline]
  | some rows =>
    simp [secondaryIndexesOnline, List.all_eq_true]


/-! ## Claim C5: no index builds without the QUERY service -/

/-- Is this action one of the three index-creation calls? -/
def isIndexBuild : Action → Bool
  | Action.buildPrimaryIdx _ => true
  | Action.buildPrimaryIdxColl _ _ _ => true
  | Action.buildSecondaryIdxColl _ _ _ _ => true
  | _ => false

theorem configureCluster_noIndexBuilds (username : String)
    (enabled : List CouchbaseService) (custom : CouchbaseService → Option Int)
    (env : QueryEnv) :
    ∀ a ∈ (configureClusterTR username enabled custom env).trace,
      isIndexBuild a = false := by
  intro a ha
  unfold configureClusterTR at ha
  rcases TR.seq_trace_mem ha with h | ha
  · simp [untilNodeIsOnlineTR, TR.act] at h; subst h; rfl
  rcases TR.seq_trace_mem ha with h | ha
  · have : a ∈ [Action.getPools] := h
    simp at this; subst this; rfl
  rcases TR.seq_trace_mem ha with h | ha
  · simp [TR.act] at h; subst h; rfl
  rcases TR.seq_trace_mem ha with h | ha
  · simp [TR.act] at h; subst h; rfl
  rcases TR.seq_trace_mem ha with h | ha
  · simp [TR.act] at h; subst h; rfl
  rcases TR.seq_trace_mem ha with h | ha
  · simp [TR.act] at h; subst h; rfl
  rcases TR.seq_trace_mem ha with h | ha
  · simp [TR.act] at h; subst h; rfl
  · by_cases hI : CouchbaseService.INDEX ∈ enabled
    · simp [hI, configureIndexerTR, TR.act] at ha; subst ha; rfl
    · simp [hI, TR.skip] at ha

theorem createCollection_noQuery_noIndexBuilds {enabled : List CouchbaseService}
    (hQ : CouchbaseService.QUERY ∉ enabled) (env : QueryEnv)
    (b : BucketDefinition) (s : ScopeDefinition) (c : CollectionDefinition) :
    ∀ a ∈ (createCollectionTR enabled env b s c).trace, isIndexBuild a = false := by
  intro a ha
  unfold createCollectionTR at ha
  rcases TR.seq_trace_mem ha with h | ha
  · simp [TR.act] at h; subst h; rfl
  rcases TR.seq_trace_mem ha with h | ha
  · simp [hQ, TR.skip] at h
  rcases TR.seq_trace_mem ha with h | ha
  · simp [hQ, TR.skip, ite_self] at h
  · simp [hQ, TR.skip, ite_self] at ha

theorem createScope_noQuery_noIndexBuilds {enabled : List CouchbaseService}
    (hQ : CouchbaseService.QUERY ∉ enabled) (env : QueryEnv)
    (b : BucketDefinition) (s : ScopeDefinition) :
    ∀ a ∈ (createScopeTR enabled env b s).trace, isIndexBuild a = false := by
  intro a ha
  unfold createScopeTR at ha
  rcases TR.seq_trace_mem ha with h | h
  · simp [TR.act] at h; subst h; rfl
  · unfold createCollectionsTR at h
    rcases TR.parAll_trace_mem h with ⟨t, ht, hat⟩
    rcases List.mem_map.mp ht with ⟨c, _, rfl⟩
    exact createCollection_noQuery_noIndexBuilds hQ env b s c a hat

theorem createBucket_noQuery_noIndexBuilds {enabled : List CouchbaseService}
    (hQ : CouchbaseService.QUERY ∉ enabled) (env : QueryEnv)
    (b : BucketDefinition) :
    ∀ a ∈ (createBucketTR enabled env b).trace, isIndexBuild a = false := by
  intro a ha
  unfold createBucketTR at ha
  rcases TR.seq_trace_mem ha with h | ha
  · simp [TR.act] at h; subst h; rfl
  rcases TR.seq_trace_mem ha with h | ha
  · simp [TR.act] at h; subst h; rfl
  rcases TR.seq_trace_mem ha with h | ha
  · simp [hQ, TR.skip] at h
  rcases TR.seq_trace_mem ha with h | ha
  · simp [hQ, TR.skip, ite_self] at h
  · by_cases hs : b.hasScopes = true
    · simp only [hs, if_true] at ha
      unfold createScopesTR at ha
      rcases TR.parAll_trace_mem ha with ⟨t, ht, hat⟩
      rcases List.mem_map.mp ht with ⟨s, _, rfl⟩
      exact createScope_noQuery_noIndexBuilds hQ env b s a hat
    · simp [hs, TR.skip] at ha

/-- Claim C5: when the QUERY service is not among the enabled services, the
whole `postStart` trace contains no index-creation call (bucket primary,
collection primary or collection secondary), whatever the bucket
definitions' `hasPrimaryIndex` flags and secondary-index DDL lists say. -/
theorem queryDisabled_noIndexBuilds (username : String)
    (enabled : List CouchbaseService) (custom : CouchbaseService → Option Int)
    (buckets : List BucketDefinition) (env : QueryEnv)
    (hQ : CouchbaseService.QUERY ∉ enabled) :
    ∀ a ∈ (postStartTR username enabled custom buckets env).trace,
      isIndexBuild a = false := by
  intro a ha
  unfold postStartTR at ha
  rcases TR.seq_trace_mem ha with h | h
  · exact configureCluster_noIndexBuilds username enabled custom env a h
  · unfold createBucketsTR at h
    rcases TR.parAll_trace_mem h with ⟨t, ht, hat⟩
    rcases List.mem_map.mp ht with ⟨b, _, rfl⟩
    exact createBucket_noQuery_noIndexBuilds hQ env b a hat

/-- A collection definition with a primary index and two secondary-index
DDLs, used by witnesses. -/
def demoColl : CollectionDefinition :=
  ((CollectionDefinition.make "c1").withSecondaryIndex
      "CREATE INDEX idx1 ON b1.s1.c1(f1)").withSecondaryIndex
    "CREATE INDEX idx2 ON b1.s1.c1(f2)"

/-- A scope holding `demoColl`, used by witnesses. -/
def demoScope : ScopeDefinition :=
  (ScopeDefinition.make "s1").withCollection demoColl

/-- A bucket holding `demoScope`, with a primary index, used by witnesses. -/
def demoBucket : BucketDefinition :=
  (BucketDefinition.make "b1").withScope demoScope

/-- An environment in which every index-creation call resolves. -/
def demoEnvOk : QueryEnv :=
  ⟨false, fun _ => none, fun _ _ _ => none, fun _ _ _ _ => none⟩

/-- Witness for C5 at a concrete cluster spec: with services `[KV]` only and
a bucket tree that carries `hasPrimaryIndex` flags and two secondary-index
DDLs, the bucket-create call is in the trace and is not an index build —
instantiating the theorem at a concrete trace member. -/
theorem queryDisabled_noIndexBuilds_witness :
    isIndexBuild (Action.createBucketCall "b1") = false :=
  queryDisabled_noIndexBuilds "Administrator" [CouchbaseService.KV]
    (fun _ => none) [demoBucket] demoEnvOk (by decide)
    (Action.createBucketCall "b1") (by decide)


/-! ## Claim C4: strict step order inside one collection

`TR.upTo t full` says `t` performed a leading portion of the step list
`full` — all of it when it did not throw. -/

def TR.upTo (t : TR) (full : List Action) : Prop :=
  (t.err = none → t.trace = full) ∧ ∃ rest, t.trace ++ rest = full

theorem TR.upTo_ownTrace (t : TR) : t.upTo t.trace :=
  ⟨fun _ => rfl, ⟨[], List.append_nil _⟩⟩

theorem TR.upTo_act (x : Action) : (TR.act x).upTo [x] :=
  ⟨fun _ => rfl, ⟨[], rfl⟩⟩

theorem TR.upTo_skip : TR.skip.upTo [] :=
  ⟨fun _ => rfl, ⟨[], rfl⟩⟩

theorem TR.upTo_seq {a b : TR} {A B : List Action}
    (ha : a.upTo A) (hb : b.upTo B) : (a.seq b).upTo (A ++ B) := by
  obtain ⟨haeq, ra, hra⟩ := ha
  obtain ⟨hbeq, rb, hrb⟩ := hb
  cases he : a.err with
  | some m =>
    constructor
    · intro hnone
      rw [TR.seq_err_of_left he] at hnone
      cases hnone
    · refine ⟨ra ++ B, ?_⟩
      have htr : (a.seq b).trace = a.trace := by simp [TR.seq, he]
      rw [htr, ← List.append_assoc, hra]
  | none =>
    have htr : (a.seq b).trace = a.trace ++ b.trace := TR.seq_trace_of_ok he
    have haA : a.trace = A := haeq he
    constructor
    · intro hnone
      rw [TR.seq_err_of_ok he] at hnone
      rw [htr, haA, hbeq hnone]
    · refine ⟨rb, ?_⟩
      rw [htr, haA, List.append_assoc, hrb]

theorem secondaryBuilds_trace (env : QueryEnv) (bn sn cn : String)
    (ddls : List String) :
    (TR.parAll (ddls.map (fun ddl =>
        buildSecondaryIndexForCollectionTR env bn sn cn ddl))).trace
      = ddls.map (fun ddl => Action.buildSecondaryIdxColl bn sn cn ddl) := by
  induction ddls with
  | nil => rfl
  | cons d rest ih =>
    have hstep : TR.parAll ((d :: rest).map (fun ddl =>
        buildSecondaryIndexForCollectionTR env bn sn cn ddl))
        = (buildSecondaryIndexForCollectionTR env bn sn cn d).par
            (TR.parAll (rest.map (fun ddl =>
              buildSecondaryIndexForCollectionTR env bn sn cn ddl))) := rfl
    rw [hstep]
    have hpar : ((buildSecondaryIndexForCollectionTR env bn sn cn d).par
        (TR.parAll (rest.map (fun ddl =>
          buildSecondaryIndexForCollectionTR env bn sn cn ddl)))).trace
        = (buildSecondaryIndexForCollectionTR env bn sn cn d).trace
          ++ (TR.parAll (rest.map (fun ddl =>
            buildSecondaryIndexForCollectionTR env bn sn cn ddl))).trace := rfl
    rw [hpar, ih]
    rfl

/-- The full ordered step list of one collection's provisioning:
create, then keyspace poll, then primary-index build and poll, then
secondary-index builds and poll, each part present under the conditions the
source checks. -/
def collFullTrace (enabled : List CouchbaseService) (bucket : BucketDefinition)
    (scope : ScopeDefinition) (coll : CollectionDefinition) : List Action :=
  [Action.createCollectionCall bucket.name scope.getName coll.getName]
  ++ ((if CouchbaseService.QUERY ∈ enabled then
        [Action.waitKeyspaceVisibleColl bucket.name scope.getName coll.getName]
      else [])
  ++ ((if coll.hasPrimaryIndex = true ∧ CouchbaseService.QUERY ∈ enabled then
        [Action.buildPrimaryIdxColl bucket.name scope.getName coll.getName,
         Action.waitPrimaryIdxOnlineColl bucket.name scope.getName coll.getName]
      else [])
  ++ (if coll.hasSecondaryIndexes = true ∧ CouchbaseService.QUERY ∈ enabled then
        coll.getSecondaryIndexes.map (fun ddl =>
          Action.buildSecondaryIdxColl bucket.name scope.getName coll.getName ddl)
        ++ [Action.waitSecondaryIdxOnlineColl bucket.name scope.getName coll.getName]
      else [])))

/-- Claim C4: inside one collection the performed steps are a leading portion
of the ordered list create → keyspace poll → primary build, primary poll →
secondary builds, secondary poll (so no step ever starts before every earlier
step completed), and a run that does not throw performs the whole ordered
list. -/
theorem createCollection_order (enabled : List CouchbaseService) (env : QueryEnv)
    (bucket : BucketDefinition) (scope : ScopeDefinition)
    (coll : CollectionDefinition) :
    ((createCollectionTR enabled env bucket scope coll).err = none →
      (createCollectionTR enabled env bucket scope coll).trace
        = collFullTrace enabled bucket scope coll)
    ∧ ∃ rest, (createCollectionTR enabled env bucket scope coll).trace ++ rest
        = collFullTrace enabled bucket scope coll := by
  have h1 := TR.upTo_act
    (Action.createCollectionCall bucket.name scope.getName coll.getName)
  have h2 : (if CouchbaseService.QUERY ∈ enabled then
        TR.act (Action.waitKeyspaceVisibleColl bucket.name scope.getName coll.getName)
      else TR.skip).upTo
      (if CouchbaseService.QUERY ∈ enabled then
        [Action.waitKeyspaceVisibleColl bucket.name scope.getName coll.getName]
      else []) := by
    by_cases hq : CouchbaseService.QUERY ∈ enabled
    · rw [if_pos hq, if_pos hq]; exact TR.upTo_act _
    · rw [if_neg hq, if_neg hq]; exact TR.upTo_skip
  have h3 : (if coll.hasPrimaryIndex = true then
        if CouchbaseService.QUERY ∈ enabled then
          (buildPrimaryIndexForCollectionTR env bucket.name scope.getName coll.getName).seq
            (TR.act (Action.waitPrimaryIdxOnlineColl bucket.name scope.getName coll.getName))
        else TR.skip
      else TR.skip).upTo
      (if coll.hasPrimaryIndex = true ∧ CouchbaseService.QUERY ∈ enabled then
        [Action.buildPrimaryIdxColl bucket.name scope.getName coll.getName,
         Action.waitPrimaryIdxOnlineColl bucket.name scope.getName coll.getName]
      else []) := by
    by_cases hp : coll.hasPrimaryIndex = true
    · by_cases hq : CouchbaseService.QUERY ∈ enabled
      · rw [if_pos hp, if_pos hq, if_pos ⟨hp, hq⟩]
        have hb : (buildPrimaryIndexForCollectionTR env bucket.name scope.getName
            coll.getName).upTo
            [Action.buildPrimaryIdxColl bucket.name scope.getName coll.getName] :=
          TR.upTo_ownTrace _
        have := TR.upTo_seq hb (TR.upTo_act
          (Action.waitPrimaryIdxOnlineColl bucket.name scope.getName coll.getName))
        simpa using this
      · rw [if_pos hp, if_neg hq, if_neg (by tauto)]
        exact TR.upTo_skip
    · rw [if_neg hp, if_neg (by tauto)]
      exact TR.upTo_skip
  have h4 : (if coll.hasSecondaryIndexes = true then
        if CouchbaseService.QUERY ∈ enabled then
          (TR.parAll (coll.getSecondaryIndexes.map (fun ddl =>
              buildSecondaryIndexForCollectionTR env bucket.name scope.getName
                coll.getName ddl))).seq
            (TR.act (Action.waitSecondaryIdxOnlineColl bucket.name scope.getName coll.getName))
        else TR.skip
      else TR.skip).upTo
      (if coll.hasSecondaryIndexes = true ∧ CouchbaseService.QUERY ∈ enabled then
        coll.getSecondaryIndexes.map (fun ddl =>
          Action.buildSecondaryIdxColl bucket.name scope.getName coll.getName ddl)
        ++ [Action.waitSecondaryIdxOnlineColl bucket.name scope.getName coll.getName]
      else []) := by
    by_cases hs : coll.hasSecondaryIndexes = true
    · by_cases hq : CouchbaseService.QUERY ∈ enabled
      · rw [if_pos hs, if_pos hq, if_pos ⟨hs, hq⟩]
        have hpar : (TR.parAll (coll.getSecondaryIndexes.map (fun ddl =>
            buildSecondaryIndexForCollectionTR env bucket.name scope.getName
              coll.getName ddl))).upTo
            (coll.getSecondaryIndexes.map (fun ddl =>
              Action.buildSecondaryIdxColl bucket.name scope.getName coll.getName ddl)) := by
          have := TR.upTo_ownTrace (TR.parAll (coll.getSecondaryIndexes.map (fun ddl =>
            buildSecondaryIndexForCollectionTR env bucket.name scope.getName
              coll.getName ddl)))
          rwa [secondaryBuilds_trace] at this
        exact TR.upTo_seq hpar (TR.upTo_act
          (Action.waitSecondaryIdxOnlineColl bucket.name scope.getName coll.getName))
      · rw [if_pos hs, if_neg hq, if_neg (by tauto)]
        exact TR.upTo_skip
    · rw [if_neg hs, if_neg (by tauto)]
      exact TR.upTo_skip
  have hAll : (createCollectionTR enabled env bucket scope coll).upTo
      (collFullTrace enabled bucket scope coll) := by
    unfold createCollectionTR collFullTrace
    exact TR.upTo_seq h1 (TR.upTo_seq h2 (TR.upTo_seq h3 h4))
  exact ⟨hAll.1, hAll.2⟩

/-- Witness for C4 at a concrete collection: two secondary-index DDLs, QUERY
enabled, every build call resolving — the collection run completes and its
trace is exactly the ordered step list. -/
theorem createCollection_order_witness :
    (createCollectionTR [CouchbaseService.KV, CouchbaseService.QUERY] demoEnvOk
        demoBucket demoScope demoColl).trace
      = collFullTrace [CouchbaseService.KV, CouchbaseService.QUERY]
          demoBucket demoScope demoColl :=
  (createCollection_order [CouchbaseService.KV, CouchbaseService.QUERY] demoEnvOk
    demoBucket demoScope demoColl).1 (by decide)

/-! ## Claim C2: tolerated deferred-build failures -/

/-- Claim C2: a failing index-creation call — bucket primary, collection
primary or collection secondary — whose error message includes the
recognized background-build fragment is treated as success (the handler
returns normally and the subsequent online poll still appears in the
trace), while a failure whose message does not include the fragment is
re-thrown and becomes the error of that entity's run. -/
theorem deferredBuild_spec :
    (∀ msg, strIncludes msg bucketDeferredMsg = true →
        buildPrimaryIndexResult (some msg) = Except.ok ())
    ∧ (∀ msg, strIncludes msg bucketDeferredMsg = false →
        buildPrimaryIndexResult (some msg) = Except.error msg)
    ∧ (∀ msg, strIncludes msg collDeferredMsg = true →
        buildPrimaryIndexForCollectionResult (some msg) = Except.ok ()
        ∧ buildSecondaryIndexForCollectionResult (some msg) = Except.ok ())
    ∧ (∀ msg, strIncludes msg collDeferredMsg = false →
        buildPrimaryIndexForCollectionResult (some msg) = Except.error msg
        ∧ buildSecondaryIndexForCollectionResult (some msg) = Except.error msg)
    ∧ (∀ (enabled : List CouchbaseService) (env : QueryEnv) (b : BucketDefinition),
        CouchbaseService.QUERY ∈ enabled → b.hasPrimaryIndex = true →
        buildPrimaryIndexResult (env.bucketPrimaryIdxOutcome b.name) = Except.ok () →
        Action.waitPrimaryIdxOnline b.name ∈ (createBucketTR enabled env b).trace)
    ∧ (∀ (enabled : List CouchbaseService) (env : QueryEnv) (b : BucketDefinition)
          (msg : String),
        CouchbaseService.QUERY ∈ enabled → b.hasPrimaryIndex = true →
        buildPrimaryIndexResult (env.bucketPrimaryIdxOutcome b.name)
          = Except.error msg →
        (createBucketTR enabled env b).err = some msg)
    ∧ (∀ (enabled : List CouchbaseService) (env : QueryEnv) (b : BucketDefinition)
          (s : ScopeDefinition) (c : CollectionDefinition),
        CouchbaseService.QUERY ∈ enabled → c.hasPrimaryIndex = true →
        buildPrimaryIndexForCollectionResult
          (env.collPrimaryIdxOutcome b.name s.getName c.getName) = Except.ok () →
        Action.waitPrimaryIdxOnlineColl b.name s.getName c.getName
          ∈ (createCollectionTR enabled env b s c).trace)
    ∧ (∀ (enabled : List CouchbaseService) (env : QueryEnv) (b : BucketDefinition)
          (s : ScopeDefinition) (c : CollectionDefinition) (msg : String),
        CouchbaseService.QUERY ∈ enabled → c.hasPrimaryIndex = true →
        buildPrimaryIndexForCollectionResult
          (env.collPrimaryIdxOutcome b.name s.getName c.getName)
          = Except.error msg →
        (createCollectionTR enabled env b s c).err = some msg)
    ∧ (∀ (enabled : List CouchbaseService) (env : QueryEnv) (b : BucketDefinition)
          (s : ScopeDefinition) (c : CollectionDefinition),
        CouchbaseService.QUERY ∈ enabled → c.hasSecondaryIndexes = true →
        (c.hasPrimaryIndex = true →
          buildPrimaryIndexForCollectionResult
            (env.collPrimaryIdxOutcome b.name s.getName c.getName) = Except.ok ()) →
        (∀ ddl ∈ c.getSecondaryIndexes,
          buildSecondaryIndexForCollectionResult
            (env.collSecondaryIdxOutcome b.name s.getName c.getName ddl)
            = Except.ok ()) →
        Action.waitSecondaryIdxOnlineColl b.name s.getName c.getName
          ∈ (createCollectionTR enabled env b s c).trace) := by
  refine ⟨?_, ?_, ?_, ?_, ?_, ?_, ?_, ?_, ?_⟩
  · intro msg h; simp [buildPrimaryIndexResult, h]
  · intro msg h; simp [buildPrimaryIndexResult, h]
  · intro msg h
    exact ⟨by simp [buildPrimaryIndexForCollectionResult, h],
      by simp [buildSecondaryIndexForCollectionResult, h]⟩
  · intro msg h
    exact ⟨by simp [buildPrimaryIndexForCollectionResult, h],
      by simp [buildSecondaryIndexForCollectionResult, h]⟩
  · intro enabled env b hq hpi hok
    have hberr : (buildPrimaryIndexTR env b.name).err = none := by
      simp [buildPrimaryIndexTR, hok, exceptErr]
    unfold createBucketTR
    refine TR.mem_seq_right rfl (TR.mem_seq_right rfl (TR.mem_seq_right ?_
      (TR.mem_seq_left ?_)))
    · by_cases hq2 : CouchbaseService.QUERY ∈ enabled
      · rw [if_pos hq2]; rfl
      · rw [if_neg hq2]; rfl
    · rw [if_pos hpi, if_pos hq]
      exact TR.mem_seq_right hberr (by simp [TR.act])
  · intro enabled env b msg hq hpi herr
    have hberr : (buildPrimaryIndexTR env b.name).err = some msg := by
      simp [buildPrimaryIndexTR, herr, exceptErr]
    have hKerr : (if CouchbaseService.QUERY ∈ enabled then
        TR.act (Action.waitKeyspaceVisible b.name) else TR.skip).err = none := by
      rw [if_pos hq]; rfl
    unfold createBucketTR
    rw [TR.seq_err_of_ok rfl, TR.seq_err_of_ok rfl, TR.seq_err_of_ok hKerr,
      if_pos hpi, if_pos hq]
    exact TR.seq_err_of_left (TR.seq_err_of_left hberr)
  · intro enabled env b s c hq hpi hok
    have hberr : (buildPrimaryIndexForCollectionTR env b.name s.getName
        c.getName).err = none := by
      simp [buildPrimaryIndexForCollectionTR, hok, exceptErr]
    unfold createCollectionTR
    refine TR.mem_seq_right rfl (TR.mem_seq_right ?_ (TR.mem_seq_left ?_))
    · rw [if_pos hq]; rfl
    · rw [if_pos hpi, if_pos hq]
      exact TR.mem_seq_right hberr (by simp [TR.act])
  · intro enabled env b s c msg hq hpi herr
    have hberr : (buildPrimaryIndexForCollectionTR env b.name s.getName
        c.getName).err = some msg := by
      simp [buildPrimaryIndexForCollectionTR, herr, exceptErr]
    have hKerr : (if CouchbaseService.QUERY ∈ enabled then
        TR.act (Action.waitKeyspaceVisibleColl b.name s.getName c.getName)
        else TR.skip).err = none := by
      rw [if_pos hq]; rfl
    unfold createCollectionTR
    rw [TR.seq_err_of_ok rfl, TR.seq_err_of_ok hKerr, if_pos hpi, if_pos hq]
    exact TR.seq_err_of_left (TR.seq_err_of_left hberr)
  · intro enabled env b s c hq hs hPok hSok
    have hparNone : (TR.parAll (c.getSecondaryIndexes.map (fun ddl =>
        buildSecondaryIndexForCollectionTR env b.name s.getName
          c.getName ddl))).err = none := by
      apply TR.parAll_err_none
      intro t ht
      rcases List.mem_map.mp ht with ⟨ddl, hddl, rfl⟩
      simp [buildSecondaryIndexForCollectionTR, exceptErr, hSok ddl hddl]
    have hKerr : (if CouchbaseService.QUERY ∈ enabled then
        TR.act (Action.waitKeyspaceVisibleColl b.name s.getName c.getName)
        else TR.skip).err = none := by
      rw [if_pos hq]; rfl
    have hPerr : (if c.hasPrimaryIndex = true then
        if CouchbaseService.QUERY ∈ enabled then
          (buildPrimaryIndexForCollectionTR env b.name s.getName c.getName).seq
            (TR.act (Action.waitPrimaryIdxOnlineColl b.name s.getName c.getName))
        else TR.skip
      else TR.skip).err = none := by
      by_cases hpi : c.hasPrimaryIndex = true
      · rw [if_pos hpi, if_pos hq]
        have hberr : (buildPrimaryIndexForCollectionTR env b.name s.getName
            c.getName).err = none := by
          simp [buildPrimaryIndexForCollectionTR, hPok hpi, exceptErr]
        rw [TR.seq_err_of_ok hberr]; rfl
      · rw [if_neg hpi]; rfl
    unfold createCollectionTR
    refine TR.mem_seq_right rfl (TR.mem_seq_right hKerr
      (TR.mem_seq_right hPerr ?_))
    rw [if_pos hs, if_pos hq]
    exact TR.mem_seq_right hparNone (by simp [TR.act])

/-- An environment whose bucket-level index creation fails with the
recognized deferred-build message and whose collection-level creations fail
with the collection-level deferred-build message. -/
def demoEnvDeferred : QueryEnv :=
  ⟨false,
   fun _ => some "Build fails. will retry building in the background",
   fun _ _ _ => some "Index creation will be retried in background",
   fun _ _ _ _ => some "Index creation will be retried in background"⟩

/-- An environment whose bucket-level index creation fails with an
unrecognized message. -/
def demoEnvFatal : QueryEnv :=
  ⟨false,
   fun _ => some "other failure",
   fun _ _ _ => none, fun _ _ _ _ => none⟩

/-- Witness for C2 at concrete inputs: recognized deferred-build messages
are swallowed and the online polls still appear in the trace; an
unrecognized message is re-thrown and becomes the bucket run's error. -/
theorem deferredBuild_spec_witness :
    buildPrimaryIndexResult
        (some "Build fails. will retry building in the background")
      = Except.ok ()
    ∧ buildPrimaryIndexResult (some "other failure")
      = Except.error "other failure"
    ∧ buildPrimaryIndexForCollectionResult
        (some "Index creation will be retried in background") = Except.ok ()
    ∧ Action.waitPrimaryIdxOnline "b1"
      ∈ (createBucketTR [CouchbaseService.KV, CouchbaseService.QUERY]
          demoEnvDeferred demoBucket).trace
    ∧ (createBucketTR [CouchbaseService.KV, CouchbaseService.QUERY]
        demoEnvFatal demoBucket).err = some "other failure"
    ∧ Action.waitSecondaryIdxOnlineColl "b1" "s1" "c1"
      ∈ (createCollectionTR [CouchbaseService.KV, CouchbaseService.QUERY]
          demoEnvDeferred demoBucket demoScope demoColl).trace := by
  refine ⟨?_, ?_, ?_, ?_, ?_, ?_⟩
  · exact deferredBuild_spec.1
      "Build fails. will retry building in the background" (by decide)
  · exact deferredBuild_spec.2.1 "other failure" (by decide)
  · exact (deferredBuild_spec.2.2.1
      "Index creation will be retried in background" (by decide)).1
  · exact deferredBuild_spec.2.2.2.2.1
      [CouchbaseService.KV, CouchbaseService.QUERY] demoEnvDeferred demoBucket
      (by decide) (by decide) (by rfl)
  · exact deferredBuild_spec.2.2.2.2.2.1
      [CouchbaseService.KV, CouchbaseService.QUERY] demoEnvFatal demoBucket
      "other failure" (by decide) (by decide) (by rfl)
  · exact deferredBuild_spec.2.2.2.2.2.2.2.2
      [CouchbaseService.KV, CouchbaseService.QUERY] demoEnvDeferred demoBucket
      demoScope demoColl (by decide) (by decide) (fun _ => by rfl)
      (fun ddl _ => by rfl)

end Couchbase
